import Mathlib

/-!
Shallow embedding of the prorecruit-prospects-outreach-api batch job
(src/config.js, src/index.js, src/sendgridHelper.js, and the firestoreHelper
module bundled at the end of src/sendgridHelper.js).

Modelling conventions:
- Firestore Timestamps are modelled as `Nat` milliseconds since the epoch
  (the runtime executes with TZ=UTC, so adding n calendar days with
  `Date.setDate` is exactly `n * 86400000` milliseconds).
- JavaScript `undefined` / absent fields are `Option.none`; JS string
  falsiness (empty string) is handled by `truthyStr`.
- External calls (SendGrid delivery, the Firestore write) are oracles:
  a `sendOk` boolean says whether a given delivery call resolves, a
  `storeOk` boolean says whether the Firestore write succeeds.
- Environment variables are taken as unset, so every `process.env.X || d`
  evaluates to its literal default `d`, matching the committed defaults.
-/

/-- JS string truthiness: an absent value and the empty string are falsy;
any other string is truthy (returned unchanged). -/
def truthyStr : Option String → Option String
  | some s => if s = "" then none else some s
  | none => none

/-- JS String.prototype.toLowerCase, modelled character-by-character (the
inputs this system lowercases are plain ASCII language tags such as "FR" or
"French"). -/
def asciiToLower (s : String) : String :=
  ⟨s.data.map Char.toLower⟩

/-- JS String.prototype.trim: strip leading and trailing whitespace. -/
def jsTrim (s : String) : String :=
  ⟨((s.data.dropWhile Char.isWhitespace).reverse.dropWhile Char.isWhitespace).reverse⟩

/- Outreach status constants, from the OUTREACH_STATUS object in
src/config.js lines 22-35.  Note the value of MOVED_TO_LEADS is the
literal string "move_to_leads" in the source. -/
namespace OUTREACH_STATUS

def PENDING_UPLOAD : String := "pending_upload"

def ENRICHMENT_FAILED : String := "enrichment_failed"

def SEQUENCE_STARTED : String := "sequence_started"

def FOLLOWUP_1 : String := "followup_1"

def FOLLOWUP_2 : String := "followup_2"

def MOVED_TO_LEADS : String := "move_to_leads"

end OUTREACH_STATUS

/-- src/config.js line 10. -/
def MAX_INITIAL_EMAILS_PER_RUN : Nat := 25

/-- src/config.js line 11. -/
def MAX_FOLLOWUP_EMAILS_PER_RUN : Nat := 75

/-- src/config.js lines 38-42: the follow-up interval table, keyed by the
current outreach status.  Only sequence_started (2 days) and followup_1
(3 days) are configured. -/
def FOLLOWUP_INTERVALS_DAYS (status : String) : Option Nat :=
  if status = OUTREACH_STATUS.SEQUENCE_STARTED then some 2
  else if status = OUTREACH_STATUS.FOLLOWUP_1 then some 3
  else none

/-- Milliseconds per calendar day (TZ=UTC, no DST). -/
def msPerDay : Nat := 86400000

/-- src/config.js lines 44-51.  Returns none when the timestamp is absent
(JS falsy) or the status has no truthy configured interval (absent status,
unknown status, or a 0-day interval would all be falsy in JS). -/
def getFollowupDueDate (lastContactedTimestamp : Option Nat)
    (currentOutreachStatus : Option String) : Option Nat :=
  match lastContactedTimestamp, currentOutreachStatus with
  | some t, some s =>
    match FOLLOWUP_INTERVALS_DAYS s with
    | some d => if d = 0 then none else some (t + d * msPerDay)
    | none => none
  | _, _ => none

/-- src/config.js lines 56-65: the initial-email template table with env
vars unset, so each entry is its committed default.  A fr_CH entry IS
configured. -/
def initialTemplates (key : String) : Option String :=
  if key = "en_US" then some "marketing_outreach_initial_en_US"
  else if key = "en_CA" then some "marketing_outreach_initial_en_CA"
  else if key = "fr_CA" then some "marketing_outreach_initial_fr_CA"
  else if key = "fr_FR" then some "marketing_outreach_initial_fr_FR"
  else if key = "fr_BE" then some "marketing_outreach_initial_fr_BE"
  else if key = "fr_CH" then some "marketing_outreach_initial_fr_CH"
  else if key = "fr_general" then some "marketing_outreach_initial_fr_general"
  else if key = "en_general" then some "marketing_outreach_initial_en_general"
  else none

/-- src/config.js lines 66-75: the follow-up template table. -/
def followupTemplates (key : String) : Option String :=
  if key = "en_US" then some "marketing_outreach_followup_en_US"
  else if key = "en_CA" then some "marketing_outreach_followup_en_CA"
  else if key = "fr_CA" then some "marketing_outreach_followup_fr_CA"
  else if key = "fr_FR" then some "marketing_outreach_followup_fr_FR"
  else if key = "fr_BE" then some "marketing_outreach_followup_fr_BE"
  else if key = "fr_CH" then some "marketing_outreach_followup_fr_CH"
  else if key = "fr_general" then some "marketing_outreach_followup_fr_general"
  else if key = "en_general" then some "marketing_outreach_followup_en_general"
  else none

/-- src/config.js lines 55-76: TEMPLATE_IDS indexed by email type. -/
def TEMPLATE_IDS (emailType : String) : Option (String → Option String) :=
  if emailType = "initial" then some initialTemplates
  else if emailType = "followup" then some followupTemplates
  else none

/-- Modelled from the spec: the bundled locale-name lookup of the external
i18n-iso-countries library used by getCountryISO2Code (src/config.js lines
113-117: English table first, then French), restricted to a representative
finite set of full country names; any name outside the table maps to none,
as the library does for unknown names. -/
def getAlpha2Code (name : String) : Option String :=
  if name = "United States" then some "US"
  else if name = "Canada" then some "CA"
  else if name = "France" then some "FR"
  else if name = "Belgium" then some "BE"
  else if name = "Switzerland" then some "CH"
  else if name = "Germany" then some "DE"
  else if name = "Suisse" then some "CH"
  else if name = "Belgique" then some "BE"
  else if name = "Allemagne" then some "DE"
  else none

/-- src/config.js lines 101-122: validates the input is a non-empty string
(after trimming) and looks the trimmed name up in the locale tables. -/
def getCountryISO2Code (countryName : Option String) : Option String :=
  match countryName with
  | none => none
  | some s => if jsTrim s = "" then none else getAlpha2Code (jsTrim s)

/-- The AI-generated email content stored on a prospect (subject/body pair,
src/index.js lines 759-767; metadata fields are irrelevant here). -/
structure AiEmail where
  subject : String
  body : String
deriving DecidableEq

/-- A prospect document, restricted to the fields the outreach phases read.
Absent fields are none. -/
structure Prospect where
  id : String
  outreachStatus : Option String := none
  enrichmentSuccess : Option Bool := none
  workEmail : Option String := none
  email : Option String := none
  personalEmail : Option String := none
  personal_emails : Option (List String) := none
  aiInitialEmailTemplate : Option Bool := none
  aiInitialEmail : Option AiEmail := none
  language : Option String := none
  country : Option String := none
  firstName : Option String := none
  lastContactedTimestamp : Option Nat := none
  followupNotNeeded : Option Bool := none
deriving DecidableEq

/-- src/config.js lines 78-92: determineTemplateId.  The language defaults
to "en" when absent or empty after lowercasing; the country degrades to the
literal "GENERAL" when the ISO lookup fails; the specific key is tried
first, then the general key, then null. -/
def determineTemplateId (p : Prospect) (emailType : String) : Option String :=
  let lang := match truthyStr (p.language.map asciiToLower) with
    | some l => l
    | none => "en"
  let country := (getCountryISO2Code p.country).getD "GENERAL"
  let key := lang ++ "_" ++ country
  let generalKey := lang ++ "_general"
  match TEMPLATE_IDS emailType with
  | none => none
  | some templateSet =>
    match templateSet key with
    | some t => some t
    | none => templateSet generalKey

/-- Recipient resolution, src/index.js lines 274-278 and 507-511:
workEmail || email || personalEmail || personal_emails[0].  The first
truthy candidate wins; when the first three are falsy the expression
unconditionally evaluates personal_emails[0], which throws a TypeError
(modelled as Except.error) when the personal_emails field itself is
absent (undefined). -/
def resolveRecipientEmail (p : Prospect) : Except Unit (Option String) :=
  match truthyStr p.workEmail with
  | some e => Except.ok (some e)
  | none =>
  match truthyStr p.email with
  | some e => Except.ok (some e)
  | none =>
  match truthyStr p.personalEmail with
  | some e => Except.ok (some e)
  | none =>
  match p.personal_emails with
  | none => Except.error ()
  | some l => Except.ok (truthyStr l.head?)

/-- The fields an update call may carry in the modelled phases. -/
structure UpdatePayload where
  outreachStatus : Option String := none
  lastContactedTimestamp : Option Nat := none
  outreachStatusMessage : Option String := none
deriving DecidableEq

/-- One updateProspect call issued by a phase: the target document id and
the caller-specified fields. -/
structure UpdateCall where
  prospectId : String
  payload : UpdatePayload
deriving DecidableEq

/-- A successfully delivered email.  For template sends the templateId
actually passed to sendEmail is recorded (an Option: src/index.js declares
the outer templateId as null at line 298, and the const templateId at line
366 is block-scoped to the else branch, so the send at line 399 sees the
outer null). -/
inductive SentEmail where
  | template (recipient : String) (templateId : Option String)
  | raw (recipient subject body : String)
deriving DecidableEq

/-- Effect of processing one prospect: counter deltas, the update calls
issued, the emails delivered, and whether an exception escaped to the
phase-level catch. -/
structure StepResult where
  sentDelta : Nat
  errorDelta : Nat
  calls : List UpdateCall
  emails : List SentEmail
  crashed : Bool
deriving DecidableEq

/-- A step that did nothing observable. -/
def emptyStep : StepResult :=
  { sentDelta := 0, errorDelta := 0, calls := [], emails := [], crashed := false }

/-- Aggregated result of a phase. -/
structure PhaseResult where
  sent : Nat
  errors : Nat
  calls : List UpdateCall
  emails : List SentEmail
deriving DecidableEq

/-- A phase result with nothing in it. -/
def emptyPhase : PhaseResult := { sent := 0, errors := 0, calls := [], emails := [] }

/-- src/index.js lines 303-306: the AI branch is taken when
aiInitialEmailTemplate === true and aiInitialEmail is truthy. -/
def aiContentFlagged (p : Prospect) : Bool :=
  p.aiInitialEmailTemplate == some true && p.aiInitialEmail.isSome

/-- The UNSUBSCRIBE_URL default (env unset), src/index.js line 317. -/
def UNSUBSCRIBE_URL : String := "https://app.prorecruit.tech/support"

/-- src/index.js lines 313-341: the full AI email body the code assembles
into the block-local fullBody variable — greeting, core AI body, closing,
and unsubscribe line, in French when language lowercases to "french" or
"fr" and in English otherwise.  (In the source this value is dead: it is
never assigned to the outer emailBody, see initialStep.) -/
def buildAiFullBody (language firstName : Option String) (aiBodyContent : String) : String :=
  let lang := language.map asciiToLower
  if lang == some "french" || lang == some "fr" then
    let greeting := "Bonjour" ++ (match truthyStr firstName with
      | some f => " " ++ f
      | none => "") ++ ","
    greeting ++ "\n\n" ++ aiBodyContent ++
      "\n\nCordialement,\n[Your Name/Team]\n\n---\nSe désabonner: " ++ UNSUBSCRIBE_URL
  else
    let greeting := "Hi " ++ ((truthyStr firstName).getD "there") ++ ","
    greeting ++ "\n\n" ++ aiBodyContent ++
      "\n\nBest regards,\n[Your Name/Team]\n\n---\nUnsubscribe: " ++ UNSUBSCRIBE_URL

/-- Per-prospect processing of the Initial Send phase, src/index.js lines
271-430.  Control flow is translated literally, including two scoping
facts of the source: (1) in the AI branch the line 310 const emailSubject
shadows the outer let emailSubject of line 296, and fullBody is never
assigned to the outer emailBody, so the validation at line 351 reads the
still-undefined outer variables and always routes to ai_content_invalid;
(2) on the template path the const templateId of line 366 is block-scoped,
so the sendEmail call at line 399 receives the outer templateId, which is
still null.  sendOk is the external delivery oracle; now is the value of
Timestamp.now(). -/
def initialStep (sendOk : Bool) (now : Nat) (p : Prospect) : StepResult :=
  match resolveRecipientEmail p with
  | Except.error _ => { emptyStep with crashed := true }
  | Except.ok none =>
    { emptyStep with
      errorDelta := 1,
      calls := [⟨p.id,
        { outreachStatus := some OUTREACH_STATUS.ENRICHMENT_FAILED,
          outreachStatusMessage := some ("Prospect " ++ p.id ++
            " has verified status but no email address. Skipping.") }⟩] }
  | Except.ok (some recipient) =>
    if aiContentFlagged p then
      let outerEmailSubject : Option String := none
      let outerEmailBody : Option String := none
      if outerEmailSubject.isNone || outerEmailBody.isNone
          || decide ((outerEmailBody.getD "").length < 50) then
        { emptyStep with
          errorDelta := 1,
          calls := [⟨p.id, { outreachStatus := some "ai_content_invalid" }⟩] }
      else
        -- unreachable: were it reached, the source would call sendRawEmail,
        -- which index.js never imports, raising a ReferenceError that the
        -- inner catch converts into an error count with no update
        { emptyStep with errorDelta := 1 }
    else
      match determineTemplateId p "initial" with
      | none =>
        { emptyStep with
          errorDelta := 1,
          calls := [⟨p.id, { outreachStatus := some "template_missing" }⟩] }
      | some _tid =>
        if sendOk then
          { sentDelta := 1, errorDelta := 0,
            calls := [⟨p.id,
              { outreachStatus := some OUTREACH_STATUS.SEQUENCE_STARTED,
                lastContactedTimestamp := some now }⟩],
            emails := [SentEmail.template recipient none], crashed := false }
        else
          { emptyStep with errorDelta := 1 }

/-- The sequential loop of the Initial Send phase over the query snapshot.
A crashed step aborts the loop (the exception escapes to the phase-level
catch at src/index.js line 431); the counts accumulated before the crash
are still returned. -/
def initialLoop (sendOk : Prospect → Bool) (now : Nat) : List Prospect → PhaseResult
  | [] => emptyPhase
  | p :: rest =>
    if (initialStep (sendOk p) now p).crashed then
      { sent := (initialStep (sendOk p) now p).sentDelta,
        errors := (initialStep (sendOk p) now p).errorDelta,
        calls := (initialStep (sendOk p) now p).calls,
        emails := (initialStep (sendOk p) now p).emails }
    else
      { sent := (initialStep (sendOk p) now p).sentDelta + (initialLoop sendOk now rest).sent,
        errors := (initialStep (sendOk p) now p).errorDelta + (initialLoop sendOk now rest).errors,
        calls := (initialStep (sendOk p) now p).calls ++ (initialLoop sendOk now rest).calls,
        emails := (initialStep (sendOk p) now p).emails ++ (initialLoop sendOk now rest).emails }

/-- The Initial Send eligibility query, src/index.js lines 255-259:
enrichmentSuccess == true, outreachStatus == pending_upload, limited to
MAX_INITIAL_EMAILS_PER_RUN documents. -/
def initialQuery (allDocs : List Prospect) : List Prospect :=
  (allDocs.filter (fun p =>
      p.enrichmentSuccess == some true
        && p.outreachStatus == some OUTREACH_STATUS.PENDING_UPLOAD)).take
    MAX_INITIAL_EMAILS_PER_RUN

/-- handleInitialEmails, src/index.js lines 247-438: query then loop. -/
def handleInitialEmails (sendOk : Prospect → Bool) (now : Nat)
    (allDocs : List Prospect) : PhaseResult :=
  initialLoop sendOk now (initialQuery allDocs)

/-- The follow-up-eligible statuses: Object.keys(FOLLOWUP_INTERVALS_DAYS),
src/index.js line 452. -/
def followupEligibleStatuses : List String :=
  [OUTREACH_STATUS.SEQUENCE_STARTED, OUTREACH_STATUS.FOLLOWUP_1]

/-- Whether a candidate is due: the computed due date exists and is <= now
(src/index.js line 500). -/
def isDue (now : Nat) (p : Prospect) : Bool :=
  match getFollowupDueDate p.lastContactedTimestamp p.outreachStatus with
  | some d => decide (d ≤ now)
  | none => false

/-- The send-and-transition tail of a due follow-up record, src/index.js
lines 547-595: resolve the followup template (missing: mark
template_missing_followup and count an error), send, and on success write
the next status together with a fresh lastContactedTimestamp; a send
failure counts an error and writes nothing. -/
def followupSendPart (sendOk : Bool) (now : Nat) (p : Prospect)
    (recipient nextStatus : String) : StepResult :=
  match determineTemplateId p "followup" with
  | none =>
    { emptyStep with
      errorDelta := 1,
      calls := [⟨p.id, { outreachStatus := some "template_missing_followup" }⟩] }
  | some tid =>
    if sendOk then
      { sentDelta := 1, errorDelta := 0,
        calls := [⟨p.id,
          { outreachStatus := some nextStatus,
            lastContactedTimestamp := some now }⟩],
        emails := [SentEmail.template recipient (some tid)], crashed := false }
    else
      { emptyStep with errorDelta := 1 }

/-- Per-candidate processing of the Follow-up phase, src/index.js lines
481-597.  A record that is not due (no computable due date, or due date in
the future) is passed over with no write and no email.  For a due record:
recipient resolution may throw (personal_emails absent) — the exception
escapes the loop; a missing recipient counts an error with no write; then
the next status is sequence_started → followup_1, followup_1 → followup_2,
and any other status goes straight to move_to_leads with no email (dead in
practice: such statuses never produce a due date). -/
def followupStep (sendOk : Bool) (now : Nat) (p : Prospect) : StepResult :=
  match getFollowupDueDate p.lastContactedTimestamp p.outreachStatus with
  | none => emptyStep
  | some d =>
    if now < d then emptyStep
    else
      match resolveRecipientEmail p with
      | Except.error _ => { emptyStep with crashed := true }
      | Except.ok none => { emptyStep with errorDelta := 1 }
      | Except.ok (some recipient) =>
        if p.outreachStatus = some OUTREACH_STATUS.SEQUENCE_STARTED then
          followupSendPart sendOk now p recipient OUTREACH_STATUS.FOLLOWUP_1
        else if p.outreachStatus = some OUTREACH_STATUS.FOLLOWUP_1 then
          followupSendPart sendOk now p recipient OUTREACH_STATUS.FOLLOWUP_2
        else
          { emptyStep with
            calls := [⟨p.id, { outreachStatus := some OUTREACH_STATUS.MOVED_TO_LEADS }⟩] }

/-- The sequential loop of the Follow-up phase with the per-run send cap
(src/index.js lines 481-487): once sentSoFar reaches
MAX_FOLLOWUP_EMAILS_PER_RUN the loop breaks; a crashed step aborts the
loop with the counts accumulated so far. -/
def followupLoop (sendOk : Prospect → Bool) (now : Nat) :
    Nat → List Prospect → PhaseResult
  | _, [] => emptyPhase
  | sentSoFar, p :: rest =>
    if MAX_FOLLOWUP_EMAILS_PER_RUN ≤ sentSoFar then emptyPhase
    else
      if (followupStep (sendOk p) now p).crashed then
        { sent := (followupStep (sendOk p) now p).sentDelta,
          errors := (followupStep (sendOk p) now p).errorDelta,
          calls := (followupStep (sendOk p) now p).calls,
          emails := (followupStep (sendOk p) now p).emails }
      else
        { sent := (followupStep (sendOk p) now p).sentDelta +
            (followupLoop sendOk now (sentSoFar + (followupStep (sendOk p) now p).sentDelta) rest).sent,
          errors := (followupStep (sendOk p) now p).errorDelta +
            (followupLoop sendOk now (sentSoFar + (followupStep (sendOk p) now p).sentDelta) rest).errors,
          calls := (followupStep (sendOk p) now p).calls ++
            (followupLoop sendOk now (sentSoFar + (followupStep (sendOk p) now p).sentDelta) rest).calls,
          emails := (followupStep (sendOk p) now p).emails ++
            (followupLoop sendOk now (sentSoFar + (followupStep (sendOk p) now p).sentDelta) rest).emails }

/-- The Follow-up candidate query, src/index.js lines 461-466:
outreachStatus in the eligible set, followupNotNeeded != true (a Firestore
inequality filter only matches documents where the field exists, hence
followupNotNeeded == false), over-fetched to 5x the send cap. -/
def followupQuery (allDocs : List Prospect) : List Prospect :=
  (allDocs.filter (fun p =>
      (match p.outreachStatus with
        | some s => followupEligibleStatuses.contains s
        | none => false)
        && p.followupNotNeeded == some false)).take
    (MAX_FOLLOWUP_EMAILS_PER_RUN * 5)

/-- handleFollowupEmails, src/index.js lines 443-605: query then loop,
with the sent counter starting at 0. -/
def handleFollowupEmails (sendOk : Prospect → Bool) (now : Nat)
    (allDocs : List Prospect) : PhaseResult :=
  followupLoop sendOk now 0 (followupQuery allDocs)

/-- Outcome of one updateProspect call (firestoreHelper, bundled at
src/sendgridHelper.js lines 443-459). -/
inductive UpdateOutcome where
  | skippedInvalid
  | written
  | failedSwallowed
deriving DecidableEq

/-- Whether the modelled update payload is empty (Object.keys length 0). -/
def UpdatePayload.isEmptyPayload (u : UpdatePayload) : Bool :=
  u.outreachStatus.isNone && u.lastContactedTimestamp.isNone
    && u.outreachStatusMessage.isNone

/-- updateProspect, src/sendgridHelper.js lines 443-459: an invalid id or
empty payload is a warn-and-return no-op; otherwise one Firestore update is
attempted (which also stamps lastModifiedTimestamp); a Firestore failure is
caught, logged, and deliberately NOT re-thrown, so the function always
returns normally (Except.ok) — storeOk is the Firestore oracle. -/
def updateProspect (prospectId : String) (updateData : UpdatePayload)
    (storeOk : Bool) : Except String UpdateOutcome :=
  if prospectId == "" || updateData.isEmptyPayload then
    Except.ok UpdateOutcome.skippedInvalid
  else if storeOk then Except.ok UpdateOutcome.written
  else Except.ok UpdateOutcome.failedSwallowed

/-- One attempt outcome of the underlying sgMail.send call. -/
inductive SgAttempt where
  | success
  | httpError (status : Nat)
  | networkError
deriving DecidableEq

/-- Final outcome of a send call together with the number of sgMail.send
attempts it consumed. -/
inductive SendCallOutcome where
  | delivered (attempts : Nat)
  | permanentFailure (attempts : Nat)
  | gaveUpMaxRetries (attempts : Nat)
  | outOfTrace
deriving DecidableEq

/-- src/sendgridHelper.js line 184: maxRetries of the template-mode send. -/
def sendEmailMaxRetries : Nat := 3

/-- sendWithRetry of sendEmail (template mode), src/sendgridHelper.js lines
189-255, driven by a trace of per-attempt results.  400/401/403 responses
throw immediately; 429 and >= 500 retry until retryCount exceeds
maxRetries; other response codes throw immediately ("unknown"); a missing
response (network error) retries like a transient error. -/
def sendEmailGo : Nat → Nat → List SgAttempt → SendCallOutcome
  | _, _, [] => SendCallOutcome.outOfTrace
  | retryCount, attempts, a :: rest =>
    match a with
    | SgAttempt.success => SendCallOutcome.delivered attempts
    | SgAttempt.httpError s =>
      if s = 400 ∨ s = 401 ∨ s = 403 then SendCallOutcome.permanentFailure attempts
      else if s = 429 ∨ 500 ≤ s then
        if sendEmailMaxRetries < retryCount + 1 then SendCallOutcome.gaveUpMaxRetries attempts
        else sendEmailGo (retryCount + 1) (attempts + 1) rest
      else SendCallOutcome.permanentFailure attempts
    | SgAttempt.networkError =>
      if sendEmailMaxRetries < retryCount + 1 then SendCallOutcome.gaveUpMaxRetries attempts
      else sendEmailGo (retryCount + 1) (attempts + 1) rest

/-- A template-mode send starting from retryCount 0, first attempt. -/
def sendEmailRun (trace : List SgAttempt) : SendCallOutcome :=
  sendEmailGo 0 1 trace

/-- The delay before retry number retryCount of sendEmail (1-based),
src/sendgridHelper.js line 221: retryDelayBase * 2^(retryCount-1) plus a
random jitter below 1000 ms. -/
def sendEmailRetryDelay (retryCount jitter : Nat) : Nat :=
  5000 * 2 ^ (retryCount - 1) + jitter

/-- src/sendgridHelper.js line 314: maxRetries of the raw-content send. -/
def sendRawEmailMaxRetries : Nat := 5

/-- The constant retry delay of sendRawEmail, src/sendgridHelper.js line
315: one minute, not increasing. -/
def sendRawEmailRetryDelay : Nat := 60000

/-- sendWithRetry of sendRawEmail (raw-content mode), src/sendgridHelper.js
lines 317-424.  Only 400 and 403 throw immediately — the 401 test is
commented out in the source (line 370) — and the retry branch condition is
statusCode === 429 || statusCode >= 401 || statusCode >= 500, so 401 (and
any other status >= 401 not equal to 403) is retried; statuses below 401
other than 400 throw as unknown; network errors retry. -/
def sendRawEmailGo : Nat → Nat → List SgAttempt → SendCallOutcome
  | _, _, [] => SendCallOutcome.outOfTrace
  | retryCount, attempts, a :: rest =>
    match a with
    | SgAttempt.success => SendCallOutcome.delivered attempts
    | SgAttempt.httpError s =>
      if s = 400 ∨ s = 403 then SendCallOutcome.permanentFailure attempts
      else if s = 429 ∨ 401 ≤ s ∨ 500 ≤ s then
        if sendRawEmailMaxRetries < retryCount + 1 then SendCallOutcome.gaveUpMaxRetries attempts
        else sendRawEmailGo (retryCount + 1) (attempts + 1) rest
      else SendCallOutcome.permanentFailure attempts
    | SgAttempt.networkError =>
      if sendRawEmailMaxRetries < retryCount + 1 then SendCallOutcome.gaveUpMaxRetries attempts
      else sendRawEmailGo (retryCount + 1) (attempts + 1) rest

/-- A raw-content send starting from retryCount 0, first attempt. -/
def sendRawEmailRun (trace : List SgAttempt) : SendCallOutcome :=
  sendRawEmailGo 0 1 trace

/-- Whether a step result is observationally different from doing nothing:
it crashed, counted something, wrote something, or sent something. -/
def stepActed (r : StepResult) : Bool :=
  r.crashed || !(r.errorDelta == 0) || !(r.sentDelta == 0)
    || !r.calls.isEmpty || !r.emails.isEmpty

/-- A 79-character AI core body, comfortably above the 50-character
validation threshold of src/index.js line 351. -/
def longAiBody : String :=
  "We help HR teams screen hundreds of CVs in minutes, not weeks, with AI ranking."

/-- A prospect that satisfies every Initial Send eligibility condition and
carries usable AI content (aiInitialEmailTemplate true, non-empty subject,
body of length 79). -/
def pAiProspect : Prospect :=
  { id := "p1", outreachStatus := some "pending_upload",
    enrichmentSuccess := some true, workEmail := some "jean@example.com",
    aiInitialEmailTemplate := some true,
    aiInitialEmail := some ⟨"Quick question", longAiBody⟩,
    language := some "fr", firstName := some "Jean", country := some "France" }

/-- An eligible template-path prospect (no AI content) resolving to the
en_US initial template. -/
def pTplProspect : Prospect :=
  { id := "t1", outreachStatus := some "pending_upload",
    enrichmentSuccess := some true, workEmail := some "a@b.c",
    language := some "en", country := some "United States" }

/-- A followup_2 prospect long past its last contact. -/
def pFollowup2 : Prospect :=
  { id := "f2", outreachStatus := some "followup_2",
    lastContactedTimestamp := some 0, workEmail := some "a@b.c",
    language := some "en", country := some "United States",
    followupNotNeeded := some false }

/-- A due sequence_started prospect. -/
def pDueStarted : Prospect :=
  { id := "d1", outreachStatus := some "sequence_started",
    lastContactedTimestamp := some 0, workEmail := some "x@y.z",
    language := some "en", country := some "United States",
    followupNotNeeded := some false }

/-- A due followup_1 prospect. -/
def pDueFollowup1 : Prospect :=
  { id := "d2", outreachStatus := some "followup_1",
    lastContactedTimestamp := some 0, workEmail := some "x@y.z",
    language := some "en", country := some "United States",
    followupNotNeeded := some false }

/-- A due prospect whose workEmail is the empty string (falsy), with no
other email candidate and the personal_emails field absent. -/
def pNoEmailField : Prospect :=
  { id := "n1", outreachStatus := some "sequence_started",
    lastContactedTimestamp := some 0, workEmail := some "",
    followupNotNeeded := some false }

/-- A prospect with language fr and country Switzerland. -/
def pFrSwitzerland : Prospect :=
  { id := "s1", language := some "fr", country := some "Switzerland" }

/-- A prospect with language fr and a country the locale tables do not
know. -/
def pFrAtlantis : Prospect :=
  { id := "s2", language := some "fr", country := some "Atlantis" }

/-- A prospect with language fr and a mapped country (DE) that has no
configured fr_DE template. -/
def pFrGermany : Prospect :=
  { id := "s3", language := some "fr", country := some "Germany" }

/-- A prospect with a language (de) for which not even a general template
is configured. -/
def pDeGermany : Prospect :=
  { id := "s4", language := some "de", country := some "Germany" }

/-- A prospect with language fr and an arbitrary country value. -/
def pFrCountry (c : Option String) : Prospect :=
  { id := "x", language := some "fr", country := c }

lemma isDue_elim {now : Nat} {p : Prospect} (h : isDue now p = true) :
    ∃ d, getFollowupDueDate p.lastContactedTimestamp p.outreachStatus = some d
      ∧ d ≤ now := by
  unfold isDue at h
  revert h
  cases heq : getFollowupDueDate p.lastContactedTimestamp p.outreachStatus with
  | none => intro h; simp at h
  | some d => intro h; exact ⟨d, rfl, of_decide_eq_true h⟩

lemma getFollowupDueDate_status {ts : Option Nat} {st : Option String} {d : Nat}
    (h : getFollowupDueDate ts st = some d) :
    st = some OUTREACH_STATUS.SEQUENCE_STARTED
      ∨ st = some OUTREACH_STATUS.FOLLOWUP_1 := by
  unfold getFollowupDueDate at h
  rcases ts with _ | t <;> rcases st with _ | s <;> simp at h
  unfold FOLLOWUP_INTERVALS_DAYS at h
  split_ifs at h with h1 h2
  · exact Or.inl (by rw [h1])
  · exact Or.inr (by rw [h2])

lemma followupStep_of_not_due {now : Nat} {p : Prospect} (sendOk : Bool)
    (h : isDue now p = false) : followupStep sendOk now p = emptyStep := by
  unfold isDue at h
  revert h
  cases heq : getFollowupDueDate p.lastContactedTimestamp p.outreachStatus with
  | none => intro _; unfold followupStep; rw [heq]
  | some d =>
    intro h
    have hlt : now < d := Nat.lt_of_not_le (of_decide_eq_false h)
    unfold followupStep
    rw [heq]
    simp [hlt]

lemma stepActed_followupStep_of_due {now : Nat} {p : Prospect} (sendOk : Bool)
    (h : isDue now p = true) :
    stepActed (followupStep sendOk now p) = true := by
  obtain ⟨d, heq, hle⟩ := isDue_elim h
  unfold followupStep
  rw [heq]
  simp only [Nat.not_lt.mpr hle, if_false]
  cases hres : resolveRecipientEmail p with
  | error e => simp [stepActed, emptyStep]
  | ok v =>
    cases v with
    | none => simp [stepActed, emptyStep]
    | some r =>
      split_ifs with h1 h2
      · unfold followupSendPart
        cases ht : determineTemplateId p "followup" with
        | none => simp [stepActed, emptyStep]
        | some tid => split_ifs <;> simp [stepActed, emptyStep]
      · unfold followupSendPart
        cases ht : determineTemplateId p "followup" with
        | none => simp [stepActed, emptyStep]
        | some tid => split_ifs <;> simp [stepActed, emptyStep]
      · simp [stepActed, emptyStep]

lemma followupStep_success_started {now : Nat} {p : Prospect} {r tid : String}
    (h1 : p.outreachStatus = some OUTREACH_STATUS.SEQUENCE_STARTED)
    (h2 : isDue now p = true)
    (h3 : resolveRecipientEmail p = Except.ok (some r))
    (h4 : determineTemplateId p "followup" = some tid) :
    followupStep true now p =
      { sentDelta := 1, errorDelta := 0,
        calls := [⟨p.id,
          { outreachStatus := some OUTREACH_STATUS.FOLLOWUP_1,
            lastContactedTimestamp := some now }⟩],
        emails := [SentEmail.template r (some tid)], crashed := false } := by
  obtain ⟨d, heq, hle⟩ := isDue_elim h2
  unfold followupStep
  rw [heq]
  simp only [Nat.not_lt.mpr hle, if_false, h3]
  rw [if_pos h1]
  unfold followupSendPart
  rw [h4]
  rfl

lemma followupStep_success_f1 {now : Nat} {p : Prospect} {r tid : String}
    (h1 : p.outreachStatus = some OUTREACH_STATUS.FOLLOWUP_1)
    (h2 : isDue now p = true)
    (h3 : resolveRecipientEmail p = Except.ok (some r))
    (h4 : determineTemplateId p "followup" = some tid) :
    followupStep true now p =
      { sentDelta := 1, errorDelta := 0,
        calls := [⟨p.id,
          { outreachStatus := some OUTREACH_STATUS.FOLLOWUP_2,
            lastContactedTimestamp := some now }⟩],
        emails := [SentEmail.template r (some tid)], crashed := false } := by
  obtain ⟨d, heq, hle⟩ := isDue_elim h2
  unfold followupStep
  rw [heq]
  simp only [Nat.not_lt.mpr hle, if_false, h3]
  rw [if_neg (by rw [h1]; simp [OUTREACH_STATUS.FOLLOWUP_1, OUTREACH_STATUS.SEQUENCE_STARTED]),
    if_pos h1]
  unfold followupSendPart
  rw [h4]
  rfl

lemma followupStep_calls_no_moved (sendOk : Bool) (now : Nat) (p : Prospect) :
    ((followupStep sendOk now p).calls.all
      (fun c => !(c.payload.outreachStatus == some OUTREACH_STATUS.MOVED_TO_LEADS))) = true := by
  unfold followupStep
  cases heq : getFollowupDueDate p.lastContactedTimestamp p.outreachStatus with
  | none => simp [emptyStep]
  | some d =>
    by_cases hlt : now < d
    · simp [hlt, emptyStep]
    · cases hres : resolveRecipientEmail p with
      | error e => simp [hlt, hres, emptyStep]
      | ok v =>
        cases v with
        | none => simp [hlt, hres, emptyStep]
        | some r =>
          by_cases h1 : p.outreachStatus = some OUTREACH_STATUS.SEQUENCE_STARTED
          · cases ht : determineTemplateId p "followup" with
            | none =>
              simp [hlt, hres, h1, followupSendPart, ht, emptyStep, OUTREACH_STATUS.SEQUENCE_STARTED, OUTREACH_STATUS.FOLLOWUP_1, OUTREACH_STATUS.FOLLOWUP_2, OUTREACH_STATUS.MOVED_TO_LEADS]
            | some tid =>
              by_cases hs : sendOk
              · simp [hlt, hres, h1, followupSendPart, ht, hs, emptyStep, OUTREACH_STATUS.SEQUENCE_STARTED, OUTREACH_STATUS.FOLLOWUP_1, OUTREACH_STATUS.FOLLOWUP_2, OUTREACH_STATUS.MOVED_TO_LEADS]
              · simp [hlt, hres, h1, followupSendPart, ht, hs, emptyStep, OUTREACH_STATUS.SEQUENCE_STARTED, OUTREACH_STATUS.FOLLOWUP_1, OUTREACH_STATUS.FOLLOWUP_2, OUTREACH_STATUS.MOVED_TO_LEADS]
          · by_cases h2 : p.outreachStatus = some OUTREACH_STATUS.FOLLOWUP_1
            · cases ht : determineTemplateId p "followup" with
              | none =>
                simp [hlt, hres, h1, h2, followupSendPart, ht, emptyStep, OUTREACH_STATUS.SEQUENCE_STARTED, OUTREACH_STATUS.FOLLOWUP_1, OUTREACH_STATUS.FOLLOWUP_2, OUTREACH_STATUS.MOVED_TO_LEADS]
              | some tid =>
                by_cases hs : sendOk
                · simp [hlt, hres, h1, h2, followupSendPart, ht, hs, emptyStep, OUTREACH_STATUS.SEQUENCE_STARTED, OUTREACH_STATUS.FOLLOWUP_1, OUTREACH_STATUS.FOLLOWUP_2, OUTREACH_STATUS.MOVED_TO_LEADS]
                · simp [hlt, hres, h1, h2, followupSendPart, ht, hs, emptyStep, OUTREACH_STATUS.SEQUENCE_STARTED, OUTREACH_STATUS.FOLLOWUP_1, OUTREACH_STATUS.FOLLOWUP_2, OUTREACH_STATUS.MOVED_TO_LEADS]
            · rcases getFollowupDueDate_status heq with hsd | hsd
              · exact absurd hsd h1
              · exact absurd hsd h2

lemma initialStep_success {now : Nat} {p : Prospect} {r tid : String}
    (hrec : resolveRecipientEmail p = Except.ok (some r))
    (hai : aiContentFlagged p = false)
    (htpl : determineTemplateId p "initial" = some tid) :
    initialStep true now p =
      { sentDelta := 1, errorDelta := 0,
        calls := [⟨p.id,
          { outreachStatus := some OUTREACH_STATUS.SEQUENCE_STARTED,
            lastContactedTimestamp := some now }⟩],
        emails := [SentEmail.template r none], crashed := false } := by
  unfold initialStep
  rw [hrec]
  simp only [hai, Bool.false_eq_true, if_false]
  rw [htpl]
  rfl

lemma initialStep_send_failed {now : Nat} {p : Prospect} {r tid : String}
    (hrec : resolveRecipientEmail p = Except.ok (some r))
    (hai : aiContentFlagged p = false)
    (htpl : determineTemplateId p "initial" = some tid) :
    initialStep false now p = { emptyStep with errorDelta := 1 } := by
  unfold initialStep
  rw [hrec]
  simp only [hai, Bool.false_eq_true, if_false]
  rw [htpl]

lemma initialStep_sentDelta_le_one (sendOk : Bool) (now : Nat) (p : Prospect) :
    (initialStep sendOk now p).sentDelta ≤ 1 := by
  unfold initialStep
  cases resolveRecipientEmail p with
  | error e => simp [emptyStep]
  | ok v =>
    cases v with
    | none => simp [emptyStep]
    | some r =>
      by_cases hai : aiContentFlagged p
      · simp [hai, emptyStep]
      · simp only [hai, Bool.false_eq_true, if_false]
        cases determineTemplateId p "initial" with
        | none => simp [emptyStep]
        | some tid =>
          by_cases hs : sendOk <;> simp [hs, emptyStep]

lemma initialLoop_sent_le_length (sendOk : Prospect → Bool) (now : Nat)
    (l : List Prospect) : (initialLoop sendOk now l).sent ≤ l.length := by
  induction l with
  | nil => simp [initialLoop, emptyPhase]
  | cons p rest ih =>
    have h := initialStep_sentDelta_le_one (sendOk p) now p
    unfold initialLoop
    by_cases hc : (initialStep (sendOk p) now p).crashed
    · rw [if_pos hc]
      simp only [List.length_cons]
      omega
    · rw [if_neg hc]
      simp only [List.length_cons]
      omega

/-- C1 (amended): for every prospect with outreachStatus pending_upload,
enrichmentSuccess true, a resolvable recipient email, no usable-AI-content
flag, and a resolvable initial template, a successful delivery call makes
the Initial Send phase write — in one update — outreachStatus
sequence_started together with lastContactedTimestamp set to the current
time, and at most MAX_INITIAL_EMAILS_PER_RUN prospects are transitioned
per invocation (the eligibility query is limited to that many documents).
The claim as frozen also covered prospects with usable AI content; those
are never transitioned (see the counterexample), which forces the
restriction to the template path. -/
theorem C1_initial_send_transition_and_cap
    (now : Nat) (p : Prospect) (r tid : String)
    (sendOk : Prospect → Bool) (allDocs : List Prospect)
    (_henr : p.enrichmentSuccess = some true)
    (_hpend : p.outreachStatus = some OUTREACH_STATUS.PENDING_UPLOAD)
    (hrec : resolveRecipientEmail p = Except.ok (some r))
    (hai : aiContentFlagged p = false)
    (htpl : determineTemplateId p "initial" = some tid) :
    initialStep true now p =
      { sentDelta := 1, errorDelta := 0,
        calls := [⟨p.id,
          { outreachStatus := some OUTREACH_STATUS.SEQUENCE_STARTED,
            lastContactedTimestamp := some now }⟩],
        emails := [SentEmail.template r none], crashed := false } ∧
    (handleInitialEmails sendOk now allDocs).sent ≤ MAX_INITIAL_EMAILS_PER_RUN := by
  refine ⟨initialStep_success hrec hai htpl, ?_⟩
  unfold handleInitialEmails
  calc (initialLoop sendOk now (initialQuery allDocs)).sent
      ≤ (initialQuery allDocs).length := initialLoop_sent_le_length _ _ _
    _ ≤ MAX_INITIAL_EMAILS_PER_RUN := by
        unfold initialQuery
        exact List.length_take_le _ _

/-- C1 witness: the theorem applied to the concrete template-path prospect
pTplProspect at time 7. -/
theorem C1_initial_send_transition_and_cap_witness :
    initialStep true 7 pTplProspect =
      { sentDelta := 1, errorDelta := 0,
        calls := [⟨"t1",
          { outreachStatus := some OUTREACH_STATUS.SEQUENCE_STARTED,
            lastContactedTimestamp := some 7 }⟩],
        emails := [SentEmail.template "a@b.c" none], crashed := false } ∧
    (handleInitialEmails (fun _ => true) 7 [pTplProspect]).sent
      ≤ MAX_INITIAL_EMAILS_PER_RUN :=
  C1_initial_send_transition_and_cap 7 pTplProspect "a@b.c"
    "marketing_outreach_initial_en_US" (fun _ => true) [pTplProspect]
    rfl rfl rfl rfl (by decide)

/-- C1 counterexample: pAiProspect satisfies every hypothesis of the frozen
claim (pending_upload, enriched, recipient jean@example.com, AI content
flagged usable with a 79-character body), yet one invocation of the
Initial Send phase does not transition it to sequence_started: the only
write sets outreachStatus to ai_content_invalid and the sent counter
stays 0. -/
theorem C1_ai_prospect_not_transitioned :
    (handleInitialEmails (fun _ => true) 42 [pAiProspect]).sent = 0 ∧
    (handleInitialEmails (fun _ => true) 42 [pAiProspect]).calls =
      [⟨"p1", { outreachStatus := some "ai_content_invalid" }⟩] :=
  ⟨rfl, rfl⟩

set_option maxRecDepth 8192 in
/-- C2: at the failing input pAiProspect (usable AI content, French), the
Initial Send phase never performs the raw-content send the claim
describes: it marks the prospect ai_content_invalid and delivers no email,
because the const emailSubject of src/index.js line 310 shadows the outer
variable, the assembled fullBody is never stored in the outer emailBody,
and the validation at line 351 therefore always fails.  The second
conjunct evaluates the full body the code assembles (and then drops):
French greeting, the AI core body, French closing, and unsubscribe line —
exactly the construction the claim specifies. -/
theorem C2_ai_raw_send_never_happens :
    handleInitialEmails (fun _ => true) 99 [pAiProspect] =
      { sent := 0, errors := 1,
        calls := [⟨"p1", { outreachStatus := some "ai_content_invalid" }⟩],
        emails := [] } ∧
    buildAiFullBody (some "fr") (some "Jean") longAiBody =
      "Bonjour Jean,\n\n" ++ longAiBody ++
        "\n\nCordialement,\n[Your Name/Team]\n\n---\nSe désabonner: " ++
        UNSUBSCRIBE_URL :=
  ⟨rfl, by decide⟩

/-- C3 (amended): in the Follow-up phase, a successful send on a due
record transitions sequence_started to followup_1 (first conjunct) and
followup_1 to followup_2 (second conjunct), writing the new status
together with a fresh lastContactedTimestamp.  The claim as frozen also
asserted that some due record in the follow-up-eligible set with no mapped
next status (followup_2 in particular) is moved to moved_to_leads; but the
eligible set — the keys of FOLLOWUP_INTERVALS_DAYS — is exactly
{sequence_started, followup_1}, both of which have mapped next statuses,
and a followup_2 record is never eligible or due (see the counterexample),
so the moved_to_leads fallback is unreachable: the third conjunct proves
the phase never issues a write carrying move_to_leads. -/
theorem C3_followup_transitions
    (now : Nat) (p q x : Prospect) (r rq tid tidq : String)
    (sendOk2 : Bool) (now2 : Nat)
    (hp1 : p.outreachStatus = some OUTREACH_STATUS.SEQUENCE_STARTED)
    (hp2 : isDue now p = true)
    (hp3 : resolveRecipientEmail p = Except.ok (some r))
    (hp4 : determineTemplateId p "followup" = some tid)
    (hq1 : q.outreachStatus = some OUTREACH_STATUS.FOLLOWUP_1)
    (hq2 : isDue now q = true)
    (hq3 : resolveRecipientEmail q = Except.ok (some rq))
    (hq4 : determineTemplateId q "followup" = some tidq) :
    followupStep true now p =
      { sentDelta := 1, errorDelta := 0,
        calls := [⟨p.id,
          { outreachStatus := some OUTREACH_STATUS.FOLLOWUP_1,
            lastContactedTimestamp := some now }⟩],
        emails := [SentEmail.template r (some tid)], crashed := false } ∧
    followupStep true now q =
      { sentDelta := 1, errorDelta := 0,
        calls := [⟨q.id,
          { outreachStatus := some OUTREACH_STATUS.FOLLOWUP_2,
            lastContactedTimestamp := some now }⟩],
        emails := [SentEmail.template rq (some tidq)], crashed := false } ∧
    ((followupStep sendOk2 now2 x).calls.all
      (fun c => !(c.payload.outreachStatus == some OUTREACH_STATUS.MOVED_TO_LEADS))) = true :=
  ⟨followupStep_success_started hp1 hp2 hp3 hp4,
   followupStep_success_f1 hq1 hq2 hq3 hq4,
   followupStep_calls_no_moved sendOk2 now2 x⟩

/-- C3 witness: the theorem applied to concrete due prospects pDueStarted
and pDueFollowup1 at day 3, and to pFollowup2 for the no-moved-write
conjunct. -/
theorem C3_followup_transitions_witness :
    followupStep true 259200000 pDueStarted =
      { sentDelta := 1, errorDelta := 0,
        calls := [⟨"d1",
          { outreachStatus := some OUTREACH_STATUS.FOLLOWUP_1,
            lastContactedTimestamp := some 259200000 }⟩],
        emails := [SentEmail.template "x@y.z"
          (some "marketing_outreach_followup_en_US")], crashed := false } ∧
    followupStep true 259200000 pDueFollowup1 =
      { sentDelta := 1, errorDelta := 0,
        calls := [⟨"d2",
          { outreachStatus := some OUTREACH_STATUS.FOLLOWUP_2,
            lastContactedTimestamp := some 259200000 }⟩],
        emails := [SentEmail.template "x@y.z"
          (some "marketing_outreach_followup_en_US")], crashed := false } ∧
    ((followupStep true 999 pFollowup2).calls.all
      (fun c => !(c.payload.outreachStatus == some OUTREACH_STATUS.MOVED_TO_LEADS))) = true :=
  C3_followup_transitions 259200000 pDueStarted pDueFollowup1 pFollowup2
    "x@y.z" "x@y.z" "marketing_outreach_followup_en_US"
    "marketing_outreach_followup_en_US" true 999
    rfl rfl rfl (by decide) rfl rfl rfl (by decide)

/-- C3 counterexample: a followup_2 record (pFollowup2, last contacted at
time 0, checked long after) has no computable due date, is not in the
follow-up-eligible query, and one invocation of the Follow-up phase leaves
it entirely untouched: no write to move_to_leads, no write at all, no
email — refuting the claim that such a record is transitioned to
moved_to_leads. -/
theorem C3_followup2_untouched :
    getFollowupDueDate (some 0) (some OUTREACH_STATUS.FOLLOWUP_2) = none ∧
    followupStep true 1000000000000 pFollowup2 = emptyStep ∧
    handleFollowupEmails (fun _ => true) 1000000000000 [pFollowup2] = emptyPhase :=
  ⟨rfl, rfl, rfl⟩

/-- C4: the due-date computation and due test of the Follow-up phase:
dueDate(T, sequence_started) is T plus 2 days, dueDate(T, followup_1) is T
plus 3 days, an absent lastContactedTimestamp yields no due date, a status
with no configured interval yields no due date; and the per-record
processing of the Follow-up phase acts on a record (counts, writes, sends,
or crashes) exactly when the computed due date exists and is <= now. -/
theorem C4_due_date_semantics
    (T : Nat) (st : Option String) (s : String)
    (sendOk : Bool) (now : Nat) (p : Prospect)
    (hnone : FOLLOWUP_INTERVALS_DAYS s = none) :
    getFollowupDueDate (some T) (some OUTREACH_STATUS.SEQUENCE_STARTED) =
      some (T + 2 * msPerDay) ∧
    getFollowupDueDate (some T) (some OUTREACH_STATUS.FOLLOWUP_1) =
      some (T + 3 * msPerDay) ∧
    getFollowupDueDate none st = none ∧
    getFollowupDueDate (some T) (some s) = none ∧
    stepActed (followupStep sendOk now p) = isDue now p := by
  refine ⟨rfl, rfl, ?_, ?_, ?_⟩
  · cases st <;> rfl
  · unfold getFollowupDueDate
    simp only [hnone]
  · cases hb : isDue now p with
    | false =>
      rw [followupStep_of_not_due sendOk hb]
      simp [stepActed, emptyStep]
    | true =>
      rw [stepActed_followupStep_of_due sendOk hb]

/-- C4 witness: the theorem applied at T = 5, an arbitrary absent-anchor
status, the unconfigured status followup_2, and the concrete due prospect
pDueStarted at day 2. -/
theorem C4_due_date_semantics_witness :
    getFollowupDueDate (some 5) (some OUTREACH_STATUS.SEQUENCE_STARTED) =
      some (5 + 2 * msPerDay) ∧
    getFollowupDueDate (some 5) (some OUTREACH_STATUS.FOLLOWUP_1) =
      some (5 + 3 * msPerDay) ∧
    getFollowupDueDate none (some "sequence_started") = none ∧
    getFollowupDueDate (some 5) (some OUTREACH_STATUS.FOLLOWUP_2) = none ∧
    stepActed (followupStep true 172800000 pDueStarted) = isDue 172800000 pDueStarted :=
  C4_due_date_semantics 5 (some "sequence_started") OUTREACH_STATUS.FOLLOWUP_2
    true 172800000 pDueStarted rfl

/-- C5 (amended): for language fr and country Switzerland the resolver
returns the configured fr_CH template id (an fr_CH entry exists in
TEMPLATE_IDS, contrary to the frozen claim); a country that maps to an
ISO code with no configured entry (Germany) and a country the locale
tables cannot map at all (Atlantis) both degrade to the fr_general entry
without throwing; the resolver returns null only when the general entry is
also absent (language de); and for language fr with any country value
whatsoever the result is never null. -/
theorem C5_template_resolution (c : Option String) :
    determineTemplateId pFrSwitzerland "initial" =
      some "marketing_outreach_initial_fr_CH" ∧
    determineTemplateId pFrGermany "initial" =
      some "marketing_outreach_initial_fr_general" ∧
    determineTemplateId pFrAtlantis "initial" =
      some "marketing_outreach_initial_fr_general" ∧
    determineTemplateId pDeGermany "initial" = none ∧
    (determineTemplateId (pFrCountry c) "initial").isSome = true := by
  refine ⟨by decide, by decide, by decide, by decide, ?_⟩
  unfold determineTemplateId pFrCountry
  simp only [show asciiToLower "fr" = "fr" from by decide, Option.map_some', truthyStr,
    TEMPLATE_IDS]
  norm_num
  split
  · simp
  · decide

/-- C5 witness: the general-fallback conjunct applied at a concrete
unmapped country. -/
theorem C5_template_resolution_witness :
    (determineTemplateId (pFrCountry (some "Narnia")) "initial").isSome = true :=
  (C5_template_resolution (some "Narnia")).2.2.2.2

/-- C5 counterexample: at language fr, country Switzerland the resolver
returns the fr_CH template id, not the fr_general id the claim asserts. -/
theorem C5_fr_switzerland_is_fr_CH :
    determineTemplateId pFrSwitzerland "initial" =
      some "marketing_outreach_initial_fr_CH" ∧
    (determineTemplateId pFrSwitzerland "initial" ==
      some "marketing_outreach_initial_fr_general") = false :=
  ⟨by decide, by decide⟩

/-- C6 (amended): in template mode (sendEmail) a 400/401/403 response
fails immediately after one attempt with zero retries, a 5xx gets retried
(second attempt delivered), a 429 is retried with exponentially increasing
delay until the 3-retry cap and then fails permanently.  In raw-content
mode (sendRawEmail) only 400 and 403 fail immediately — the 401 check is
commented out in the source, so a 401 (like any status >= 401 other than
403) is retried, with a constant one-minute delay, up to the 5-retry cap
(see the counterexample); 429/5xx are likewise retried to the cap and then
fail permanently. -/
theorem C6_delivery_retry_policy
    (s s2 s3 : Nat) (rest rest2 rest3 : List SgAttempt) (k j1 j2 : Nat)
    (h1 : s = 400 ∨ s = 401 ∨ s = 403)
    (h2 : 500 ≤ s2)
    (h3 : 1 ≤ k) (h4 : j1 < 1000)
    (h5 : s3 = 400 ∨ s3 = 403) :
    sendEmailGo 0 1 (SgAttempt.httpError s :: rest) =
      SendCallOutcome.permanentFailure 1 ∧
    sendEmailRun (SgAttempt.httpError s2 :: SgAttempt.success :: rest2) =
      SendCallOutcome.delivered 2 ∧
    sendEmailRun (List.replicate 4 (SgAttempt.httpError 429)) =
      SendCallOutcome.gaveUpMaxRetries 4 ∧
    sendEmailRetryDelay k j1 < sendEmailRetryDelay (k + 1) j2 ∧
    sendRawEmailGo 0 1 (SgAttempt.httpError s3 :: rest3) =
      SendCallOutcome.permanentFailure 1 ∧
    sendRawEmailRun (List.replicate 6 (SgAttempt.httpError 429)) =
      SendCallOutcome.gaveUpMaxRetries 6 := by
  refine ⟨?_, ?_, by decide, ?_, ?_, by decide⟩
  · simp only [sendEmailGo]
    rw [if_pos h1]
  · unfold sendEmailRun
    simp only [sendEmailGo]
    rw [if_neg (by omega), if_pos (by omega), if_neg (by decide)]
  · obtain ⟨m, rfl⟩ := Nat.exists_eq_add_of_le h3
    unfold sendEmailRetryDelay
    have hx : 1 ≤ 2 ^ m := Nat.one_le_two_pow
    have he1 : 1 + m - 1 = m := by omega
    have he2 : 1 + m + 1 - 1 = m + 1 := by omega
    rw [he1, he2, pow_succ]
    have hy : 5000 * (2 ^ m * 2) = 10000 * 2 ^ m := by ring
    rw [hy]
    omega
  · simp only [sendRawEmailGo]
    rw [if_pos h5]

/-- C6 witness: the theorem applied at status 401 (template mode), 500,
403 (raw mode), retry number 1 with jitters 999 and 0. -/
theorem C6_delivery_retry_policy_witness :
    sendEmailGo 0 1 [SgAttempt.httpError 401] =
      SendCallOutcome.permanentFailure 1 ∧
    sendEmailRun [SgAttempt.httpError 500, SgAttempt.success] =
      SendCallOutcome.delivered 2 ∧
    sendEmailRun (List.replicate 4 (SgAttempt.httpError 429)) =
      SendCallOutcome.gaveUpMaxRetries 4 ∧
    sendEmailRetryDelay 1 999 < sendEmailRetryDelay (1 + 1) 0 ∧
    sendRawEmailGo 0 1 [SgAttempt.httpError 403] =
      SendCallOutcome.permanentFailure 1 ∧
    sendRawEmailRun (List.replicate 6 (SgAttempt.httpError 429)) =
      SendCallOutcome.gaveUpMaxRetries 6 :=
  C6_delivery_retry_policy 401 500 403 [] [] [] 1 999 0
    (Or.inr (Or.inl rfl)) (by decide) (by decide) (by decide) (Or.inr rfl)

/-- C6 counterexample: in raw-content mode a 401 response is NOT an
immediate zero-retry failure: a 401 followed by a success is delivered on
the second attempt (one retry happened), and six straight 401s exhaust all
five retries before failing — refuting the claim that a 401 fails
immediately with zero retries in both send modes. -/
theorem C6_raw_mode_retries_401 :
    sendRawEmailRun [SgAttempt.httpError 401, SgAttempt.success] =
      SendCallOutcome.delivered 2 ∧
    sendRawEmailRun (List.replicate 6 (SgAttempt.httpError 401)) =
      SendCallOutcome.gaveUpMaxRetries 6 :=
  ⟨by decide, by decide⟩

/-- C7: when the delivery call fails (throws) for a template-path prospect
in the Initial Send phase, the step issues NO update call — the record
keeps its stored outreachStatus (pending_upload), so it is eligible again
next run — the error counter is incremented by exactly one, and the loop
continues with the remaining prospects (the phase result is the failed
step's error merged with the result over the rest). -/
theorem C7_send_failure_leaves_record
    (now : Nat) (p : Prospect) (r tid : String)
    (sendOk : Prospect → Bool) (rest : List Prospect)
    (hrec : resolveRecipientEmail p = Except.ok (some r))
    (hai : aiContentFlagged p = false)
    (htpl : determineTemplateId p "initial" = some tid)
    (hfail : sendOk p = false) :
    initialStep false now p = { emptyStep with errorDelta := 1 } ∧
    initialLoop sendOk now (p :: rest) =
      { sent := (initialLoop sendOk now rest).sent,
        errors := 1 + (initialLoop sendOk now rest).errors,
        calls := (initialLoop sendOk now rest).calls,
        emails := (initialLoop sendOk now rest).emails } := by
  have hstep := @initialStep_send_failed now p r tid hrec hai htpl
  refine ⟨hstep, ?_⟩
  conv_lhs => unfold initialLoop
  rw [hfail, hstep]
  simp [emptyStep]

/-- C7 witness: the theorem applied to pTplProspect with a failing
delivery oracle and an empty remainder. -/
theorem C7_send_failure_leaves_record_witness :
    initialStep false 3 pTplProspect = { emptyStep with errorDelta := 1 } ∧
    initialLoop (fun _ => false) 3 [pTplProspect] =
      { sent := (initialLoop (fun _ => false) 3 []).sent,
        errors := 1 + (initialLoop (fun _ => false) 3 []).errors,
        calls := (initialLoop (fun _ => false) 3 []).calls,
        emails := (initialLoop (fun _ => false) 3 []).emails } :=
  C7_send_failure_leaves_record 3 pTplProspect "a@b.c"
    "marketing_outreach_initial_en_US" (fun _ => false) []
    rfl rfl (by decide) rfl

/-- C8: (1) updateProspect never propagates a store failure: whatever the
Firestore oracle does, the call returns normally (the source catches the
error, logs it, and deliberately does not re-throw), so a failed status
update after a successful send neither retries nor blocks the run; (2) on
the Initial Send success path the status transition to sequence_started
and the fresh lastContactedTimestamp are issued together in a single
update call (one element of calls carrying both fields), and the same
holds on the Follow-up success path; (3) the loop then counts the send and
continues with the remaining prospects. -/
theorem C8_send_and_update_one_unit
    (uid : String) (u : UpdatePayload) (storeOk : Bool)
    (now : Nat) (p q : Prospect) (r rq tid tidq : String)
    (sendOk : Prospect → Bool) (rest : List Prospect)
    (hrec : resolveRecipientEmail p = Except.ok (some r))
    (hai : aiContentFlagged p = false)
    (htpl : determineTemplateId p "initial" = some tid)
    (hsend : sendOk p = true)
    (hq1 : q.outreachStatus = some OUTREACH_STATUS.SEQUENCE_STARTED)
    (hq2 : isDue now q = true)
    (hq3 : resolveRecipientEmail q = Except.ok (some rq))
    (hq4 : determineTemplateId q "followup" = some tidq) :
    (∃ o, updateProspect uid u storeOk = Except.ok o) ∧
    initialStep true now p =
      { sentDelta := 1, errorDelta := 0,
        calls := [⟨p.id,
          { outreachStatus := some OUTREACH_STATUS.SEQUENCE_STARTED,
            lastContactedTimestamp := some now }⟩],
        emails := [SentEmail.template r none], crashed := false } ∧
    followupStep true now q =
      { sentDelta := 1, errorDelta := 0,
        calls := [⟨q.id,
          { outreachStatus := some OUTREACH_STATUS.FOLLOWUP_1,
            lastContactedTimestamp := some now }⟩],
        emails := [SentEmail.template rq (some tidq)], crashed := false } ∧
    initialLoop sendOk now (p :: rest) =
      { sent := 1 + (initialLoop sendOk now rest).sent,
        errors := (initialLoop sendOk now rest).errors,
        calls := ⟨p.id,
          { outreachStatus := some OUTREACH_STATUS.SEQUENCE_STARTED,
            lastContactedTimestamp := some now }⟩ ::
            (initialLoop sendOk now rest).calls,
        emails := SentEmail.template r none ::
          (initialLoop sendOk now rest).emails } := by
  have hstep := @initialStep_success now p r tid hrec hai htpl
  refine ⟨?_, hstep, followupStep_success_started hq1 hq2 hq3 hq4, ?_⟩
  · unfold updateProspect
    split_ifs <;> exact ⟨_, rfl⟩
  · conv_lhs => unfold initialLoop
    rw [hsend, hstep]
    simp

/-- C8 witness: the theorem applied at a failing store write (storeOk
false), the concrete prospects pTplProspect and pDueStarted, and time
day 2. -/
theorem C8_send_and_update_one_unit_witness :
    (∃ o, updateProspect "z" { outreachStatus := some "x" } false =
      Except.ok o) ∧
    initialStep true 172800000 pTplProspect =
      { sentDelta := 1, errorDelta := 0,
        calls := [⟨"t1",
          { outreachStatus := some OUTREACH_STATUS.SEQUENCE_STARTED,
            lastContactedTimestamp := some 172800000 }⟩],
        emails := [SentEmail.template "a@b.c" none], crashed := false } ∧
    followupStep true 172800000 pDueStarted =
      { sentDelta := 1, errorDelta := 0,
        calls := [⟨"d1",
          { outreachStatus := some OUTREACH_STATUS.FOLLOWUP_1,
            lastContactedTimestamp := some 172800000 }⟩],
        emails := [SentEmail.template "x@y.z"
          (some "marketing_outreach_followup_en_US")], crashed := false } ∧
    initialLoop (fun _ => true) 172800000 [pTplProspect] =
      { sent := 1 + (initialLoop (fun _ => true) 172800000 []).sent,
        errors := (initialLoop (fun _ => true) 172800000 []).errors,
        calls := ⟨"t1",
          { outreachStatus := some OUTREACH_STATUS.SEQUENCE_STARTED,
            lastContactedTimestamp := some 172800000 }⟩ ::
            (initialLoop (fun _ => true) 172800000 []).calls,
        emails := SentEmail.template "a@b.c" none ::
          (initialLoop (fun _ => true) 172800000 []).emails } :=
  C8_send_and_update_one_unit "z" { outreachStatus := some "x" } false
    172800000 pTplProspect pDueStarted "a@b.c" "x@y.z"
    "marketing_outreach_initial_en_US" "marketing_outreach_followup_en_US"
    (fun _ => true) [] rfl rfl (by decide) rfl rfl rfl rfl (by decide)

/-- C9: a record whose computed due date lies strictly in the future is
passed over by the Follow-up phase with no write and no email (its step is
observationally empty), and the phase result over a batch starting with
such a record is identical to the result over the batch without it. -/
theorem C9_future_due_date_no_write
    (sendOk : Bool) (sendOkF : Prospect → Bool) (now d sentSoFar : Nat)
    (p : Prospect) (rest : List Prospect)
    (h1 : getFollowupDueDate p.lastContactedTimestamp p.outreachStatus = some d)
    (h2 : now < d) :
    followupStep sendOk now p = emptyStep ∧
    followupLoop sendOkF now sentSoFar (p :: rest) =
      followupLoop sendOkF now sentSoFar rest := by
  have hnd : isDue now p = false := by
    unfold isDue
    rw [h1]
    exact decide_eq_false (Nat.not_le.mpr h2)
  refine ⟨followupStep_of_not_due sendOk hnd, ?_⟩
  conv_lhs => unfold followupLoop
  by_cases hcap : MAX_FOLLOWUP_EMAILS_PER_RUN ≤ sentSoFar
  · rw [if_pos hcap]
    cases rest with
    | nil => rfl
    | cons a l =>
      conv_rhs => unfold followupLoop
      rw [if_pos hcap]
  · rw [if_neg hcap, followupStep_of_not_due (sendOkF p) hnd]
    simp [emptyStep]

/-- C9 witness: the theorem applied to pDueStarted (due at day 2) checked
at time 5, far before its due date. -/
theorem C9_future_due_date_no_write_witness :
    followupStep true 5 pDueStarted = emptyStep ∧
    followupLoop (fun _ => true) 5 0 [pDueStarted] =
      followupLoop (fun _ => true) 5 0 [] :=
  C9_future_due_date_no_write true (fun _ => true) 5 172800000 0
    pDueStarted [] rfl (by decide)

/-- C10: when workEmail, email and personalEmail are all absent or empty,
recipient resolution unconditionally evaluates personal_emails[0]: with
the personal_emails field present it yields the (truthiness-filtered)
first element, but with the field absent the access throws (modelled as
Except.error), the exception escapes the per-record code to the
phase-level catch, and the batch is abandoned at that record: the Initial
Send phase over any batch starting with such a prospect returns only the
counts accumulated so far (here: the empty result, independent of the
remaining records), and likewise the Follow-up phase when the record is
due. -/
theorem C10_personal_emails_crash_aborts_phase
    (p : Prospect) (sendOk : Prospect → Bool) (now sentSoFar : Nat)
    (rest rest2 : List Prospect) (l : List String)
    (hw : truthyStr p.workEmail = none)
    (he : truthyStr p.email = none)
    (hp : truthyStr p.personalEmail = none)
    (hn : p.personal_emails = none)
    (hdue : isDue now p = true) :
    resolveRecipientEmail p = Except.error () ∧
    resolveRecipientEmail { p with personal_emails := some l } =
      Except.ok (truthyStr l.head?) ∧
    initialLoop sendOk now (p :: rest) = emptyPhase ∧
    followupLoop sendOk now sentSoFar (p :: rest2) = emptyPhase := by
  have hres : resolveRecipientEmail p = Except.error () := by
    unfold resolveRecipientEmail
    rw [hw, he, hp, hn]
  refine ⟨hres, ?_, ?_, ?_⟩
  · simp [resolveRecipientEmail, hw, he, hp]
  · have hstep : initialStep (sendOk p) now p = { emptyStep with crashed := true } := by
      unfold initialStep
      rw [hres]
    conv_lhs => unfold initialLoop
    rw [hstep]
    simp [emptyStep, emptyPhase]
  · obtain ⟨dd, heq, hle⟩ := isDue_elim hdue
    have hstep : followupStep (sendOk p) now p = { emptyStep with crashed := true } := by
      unfold followupStep
      rw [heq]
      simp only [Nat.not_lt.mpr hle, if_false, hres]
    conv_lhs => unfold followupLoop
    by_cases hcap : MAX_FOLLOWUP_EMAILS_PER_RUN ≤ sentSoFar
    · rw [if_pos hcap]
    · rw [if_neg hcap, hstep]
      simp [emptyStep, emptyPhase]

/-- C10 witness: the theorem applied to pNoEmailField (workEmail is the
empty string, the other candidates and personal_emails absent, due at day
2), with a singleton replacement list for the field-present conjunct. -/
theorem C10_personal_emails_crash_aborts_phase_witness :
    resolveRecipientEmail pNoEmailField = Except.error () ∧
    resolveRecipientEmail { pNoEmailField with personal_emails := some ["z@z.z"] } =
      Except.ok (truthyStr (["z@z.z"] : List String).head?) ∧
    initialLoop (fun _ => true) 172800000 [pNoEmailField] = emptyPhase ∧
    followupLoop (fun _ => true) 172800000 0 [pNoEmailField] = emptyPhase :=
  C10_personal_emails_crash_aborts_phase pNoEmailField (fun _ => true)
    172800000 0 [] [] ["z@z.z"] rfl rfl rfl rfl rfl
